import Mathlib

/-!
Verification development for the openstorage alert bus and cluster state
store.  The definitions below are shallow embeddings of the Go sources
`src/alert/alert.go`, `src/alert/alert_kvdb.go` and
`src/cluster/database.go`: pure fragments become Lean functions, the
stateful KV-store interactions become explicit state passing, and the
concurrent identifier allocator becomes a small-step machine over the
shared counter key.  Machine integers (Go `int`/`int64`) are modelled as
`Int`; no arithmetic in these code paths can overflow within the scope of
the stated properties, and the decimal encoding used by
`strconv.FormatInt`/`ParseInt` is injective, so the raw counter bytes are
modelled by the integer they encode.
-/

namespace OpenStorage

/-- Error values of the alert package (`src/alert/alert.go`) together with
the ad-hoc errors produced in `alert_kvdb.go` and `cluster/database.go`.
KV-store transport errors that the code merely propagates are collapsed
into `kvError`. -/
inductive Err
  | notFound
  | keyExists
  | unmarshal
  | notInitialized
  | resourceNotFound
  | subscribedRaise
  | noAlertRaisedYet
  | kvError
  | outOfFuel
deriving DecidableEq, Repr

/-- Resource types of `api.ResourceType` used by the alert store
(None/Volume/Node/Cluster/Drive). -/
inductive ResourceType
  | none
  | volume
  | node
  | cluster
  | drive
deriving DecidableEq, Repr

/-- Action tags of `api.AlertActionType` passed to the watch callback. -/
inductive AlertActionType
  | actionNone
  | actionCreate
  | actionUpdate
  | actionDelete
deriving DecidableEq, Repr

/-- The fields of `api.Alert` that `alert_kvdb.go` reads or writes.
`Ttl` is the KV-level expiry passed to `Create`. -/
structure Alert where
  Id : Int
  Resource : ResourceType
  Severity : Int
  AlertType : Int
  Timestamp : Int
  Cleared : Bool
  Ttl : Nat
deriving DecidableEq, Repr

/-! ### Identifier allocator (`getNextIDFromKVDB`, alert_kvdb.go 320-337)

The allocator interacts with the counter key `alert/nextAlertId` through
four atomic KV operations: `Create` (fails if the key exists), `GetVal`
(fails if absent), and `CompareAndSet` (succeeds only if the stored bytes
still equal the bytes previously read).  The machine below has one state
per program point of the Go function; `getNextIDStep` performs exactly one
atomic KV operation.  The stored bytes are represented by the integer they
encode (the decimal encoding written by the allocators is canonical and
injective). -/

/-- Program points of one `getNextIDFromKVDB` invocation. -/
inductive AllocPhase
  | start
  | loopRead
  | loopCas (v : Int)
  | done (id : Int)
  | failed
deriving DecidableEq, Repr

/-- One atomic KV operation of `getNextIDFromKVDB`, as a function of the
current content of the counter key (`Option.none` = key absent).
`start`: `kv.Create(key, "1")` — absent: succeeds, the function returns 0;
present: fails, enter the retry loop.  `loopRead`: `kv.GetVal` — absent:
any read error is converted to `ErrNotInitialized` and `-1` is returned;
present: remember the value read.  `loopCas v`: `kv.CompareAndSet` of
`v+1` with expected prior bytes `v` — unchanged: store `v+1` and return
the pre-increment value `v`; changed: loop back to the read. -/
def getNextIDStep : Option Int → AllocPhase → Option Int × AllocPhase
  | Option.none, AllocPhase.start => (some 1, AllocPhase.done 0)
  | some n, AllocPhase.start => (some n, AllocPhase.loopRead)
  | Option.none, AllocPhase.loopRead => (Option.none, AllocPhase.failed)
  | some n, AllocPhase.loopRead => (some n, AllocPhase.loopCas n)
  | store, AllocPhase.loopCas v =>
    if store = some v then (some (v + 1), AllocPhase.done v)
    else (store, AllocPhase.loopRead)
  | store, p => (store, p)

/-- Run one allocator for `fuel` atomic steps with no interference. -/
def getNextIDRun (store : Option Int) (p : AllocPhase) : Nat → Option Int × AllocPhase
  | 0 => (store, p)
  | Nat.succ fuel =>
    let sp := getNextIDStep store p
    getNextIDRun sp.1 sp.2 fuel

/-- The `(id, err)` pair `getNextIDFromKVDB` returns once it terminates:
`done v` returns `(v, nil)`, the fatal read failure returns
`(-1, ErrNotInitialized)`. -/
def allocReturn : AllocPhase → Option (Int × Option Err)
  | AllocPhase.done v => some (v, Option.none)
  | AllocPhase.failed => some (-1, some Err.notInitialized)
  | _ => Option.none

/-! ### Concurrent allocator system (for the uniqueness claim)

Several `Raise` calls against one cluster namespace run
`getNextIDFromKVDB` concurrently against the same counter key.  Every
mutation of that key in the repository is performed by an allocator, so
the system below interleaves `n` allocator processes over the shared key
under an arbitrary schedule. -/

/-- Shared counter key plus the program points of the racing allocators. -/
structure AllocSys where
  store : Option Int
  procs : List AllocPhase
deriving DecidableEq, Repr

/-- Let process `i` perform its next atomic KV operation (no-op when `i`
is out of range or the process has finished). -/
def stepSys (sys : AllocSys) (i : Nat) : AllocSys :=
  match sys.procs[i]? with
  | Option.none => sys
  | some p =>
    let sp := getNextIDStep sys.store p
    ⟨sp.1, sys.procs.set i sp.2⟩

/-- Interleave the processes under a schedule (a list of process ids). -/
def runSys : AllocSys → List Nat → AllocSys
  | sys, [] => sys
  | sys, i :: rest => runSys (stepSys sys i) rest

/-- Counter value encoded by the key content (absent reads as 0 for the
purpose of bounding allocated identifiers). -/
def storeBound : Option Int → Int
  | Option.none => 0
  | some k => k

/-- Invariant of the allocator system: every allocated identifier is below
the stored counter, and allocated identifiers are pairwise distinct. -/
def AllocInv (sys : AllocSys) : Prop :=
  (∀ (i : Nat) (v : Int),
    sys.procs[i]? = some (AllocPhase.done v) → v < storeBound sys.store) ∧
  (∀ (i j : Nat) (v w : Int), i ≠ j →
    sys.procs[i]? = some (AllocPhase.done v) →
    sys.procs[j]? = some (AllocPhase.done w) → v ≠ w)

lemma getNextIDStep_mono (store : Option Int) (p : AllocPhase) :
    storeBound store ≤ storeBound (getNextIDStep store p).1 := by
  cases p with
  | start => cases store <;> simp [getNextIDStep, storeBound]
  | loopRead => cases store <;> simp [getNextIDStep, storeBound]
  | loopCas v =>
    by_cases hs : store = some v
    · subst hs
      simp [getNextIDStep, storeBound]
    · simp [getNextIDStep, hs]
  | done id => cases store <;> simp [getNextIDStep, storeBound]
  | failed => cases store <;> simp [getNextIDStep, storeBound]

lemma getNextIDStep_done_cases (store : Option Int) (p : AllocPhase) (v : Int)
    (h : (getNextIDStep store p).2 = AllocPhase.done v) :
    p = AllocPhase.done v ∨
    (store = Option.none ∧ p = AllocPhase.start ∧ v = 0 ∧
      (getNextIDStep store p).1 = some 1) ∨
    (store = some v ∧ p = AllocPhase.loopCas v ∧
      (getNextIDStep store p).1 = some (v + 1)) := by
  cases p with
  | start =>
    cases store with
    | none =>
      simp only [getNextIDStep] at h
      injection h with hv
      subst hv
      exact Or.inr (Or.inl ⟨rfl, rfl, rfl, rfl⟩)
    | some n => simp [getNextIDStep] at h
  | loopRead =>
    cases store with
    | none => simp [getNextIDStep] at h
    | some n => simp [getNextIDStep] at h
  | loopCas w =>
    by_cases hs : store = some w
    · subst hs
      simp only [getNextIDStep, if_pos] at h
      injection h with hv
      subst hv
      exact Or.inr (Or.inr ⟨rfl, rfl, by simp [getNextIDStep]⟩)
    · simp [getNextIDStep, hs] at h
  | done w =>
    cases store with
    | none =>
      simp [getNextIDStep] at h
      exact Or.inl (by rw [h])
    | some n =>
      simp [getNextIDStep] at h
      exact Or.inl (by rw [h])
  | failed =>
    cases store <;> simp [getNextIDStep] at h

lemma stepSys_some (sys : AllocSys) (t : Nat) (p : AllocPhase)
    (hp : sys.procs[t]? = some p) :
    stepSys sys t =
      ⟨(getNextIDStep sys.store p).1, sys.procs.set t (getNextIDStep sys.store p).2⟩ := by
  unfold stepSys
  rw [hp]

lemma stepSys_outOfRange (sys : AllocSys) (t : Nat)
    (hp : sys.procs[t]? = Option.none) : stepSys sys t = sys := by
  unfold stepSys
  rw [hp]

lemma allocInv_step (sys : AllocSys) (t : Nat) (h : AllocInv sys) :
    AllocInv (stepSys sys t) := by
  obtain ⟨h1, h2⟩ := h
  cases hp : sys.procs[t]? with
  | none =>
    rw [stepSys_outOfRange sys t hp]
    exact ⟨h1, h2⟩
  | some p =>
    rw [stepSys_some sys t p hp]
    have ht : t < sys.procs.length := (List.getElem?_eq_some.mp hp).1
    have hget : ∀ i, i ≠ t →
        (sys.procs.set t (getNextIDStep sys.store p).2)[i]? = sys.procs[i]? := by
      intro i hi
      exact List.getElem?_set_ne (Ne.symm hi)
    have hgett :
        (sys.procs.set t (getNextIDStep sys.store p).2)[t]? =
          some (getNextIDStep sys.store p).2 := by
      rw [List.getElem?_set_self']
      simp [List.getElem?_eq_getElem ht]
    unfold AllocInv
    refine ⟨?_, ?_⟩
    · intro i v hv
      simp only at hv ⊢
      by_cases hi : i = t
      · rw [hi, hgett] at hv
        have hv' : (getNextIDStep sys.store p).2 = AllocPhase.done v :=
          Option.some.inj hv
        rcases getNextIDStep_done_cases sys.store p v hv' with hc | hc | hc
        · have hvlt : v < storeBound sys.store := h1 t v (by rw [hp, hc])
          exact lt_of_lt_of_le hvlt (getNextIDStep_mono sys.store p)
        · rcases hc with ⟨_, _, hv0, hs1⟩
          rw [hs1, hv0]
          simp [storeBound]
        · rcases hc with ⟨_, _, hs1⟩
          rw [hs1]
          simp [storeBound]
      · rw [hget i hi] at hv
        exact lt_of_lt_of_le (h1 i v hv) (getNextIDStep_mono sys.store p)
    · intro i j v w hij hv hw
      simp only at hv hw
      by_cases hi : i = t <;> by_cases hj : j = t
      · exact absurd (hi.trans hj.symm) hij
      · -- process `i` just stepped; process `j` was already done
        rw [hi, hgett] at hv
        rw [hget j hj] at hw
        have hv' : (getNextIDStep sys.store p).2 = AllocPhase.done v :=
          Option.some.inj hv
        rcases getNextIDStep_done_cases sys.store p v hv' with hc | hc | hc
        · exact h2 t j v w (hi ▸ hij) (by rw [hp, hc]) hw
        · rcases hc with ⟨hs, _, hv0, _⟩
          have hwlt := h1 j w hw
          rw [hs] at hwlt
          simp only [storeBound] at hwlt
          omega
        · rcases hc with ⟨hs, _, _⟩
          have hwlt := h1 j w hw
          rw [hs] at hwlt
          simp only [storeBound] at hwlt
          omega
      · rw [hj, hgett] at hw
        rw [hget i hi] at hv
        have hw' : (getNextIDStep sys.store p).2 = AllocPhase.done w :=
          Option.some.inj hw
        rcases getNextIDStep_done_cases sys.store p w hw' with hc | hc | hc
        · exact h2 i t v w (hj ▸ hij) hv (by rw [hp, hc])
        · rcases hc with ⟨hs, _, hw0, _⟩
          have hvlt := h1 i v hv
          rw [hs] at hvlt
          simp only [storeBound] at hvlt
          omega
        · rcases hc with ⟨hs, _, _⟩
          have hvlt := h1 i v hv
          rw [hs] at hvlt
          simp only [storeBound] at hvlt
          omega
      · rw [hget i hi] at hv
        rw [hget j hj] at hw
        exact h2 i j v w hij hv hw

lemma allocInv_run (sys : AllocSys) (sched : List Nat) (h : AllocInv sys) :
    AllocInv (runSys sys sched) := by
  induction sched generalizing sys with
  | nil => exact h
  | cons i rest ih => exact ih (stepSys sys i) (allocInv_step sys i h)

lemma allocInv_init (n : Nat) :
    AllocInv ⟨Option.none, List.replicate n AllocPhase.start⟩ := by
  unfold AllocInv
  refine ⟨?_, ?_⟩
  · intro i v hv
    simp only [List.getElem?_replicate] at hv
    split at hv <;> simp_all
  · intro i j v w _ hv _
    simp only [List.getElem?_replicate] at hv
    split at hv <;> simp_all

/-! ### Alert store (Raise / raise / clear, alert_kvdb.go)

The KV keys the alert store touches are `alert/<partition>/<id>` (record
keys — `getResourceKey` maps Volume/Node/Cluster to their partitions and
everything else, Drive included, to the drive partition),
`alert/subscriptions/<alertType>` and `alert/nextAlertId`.  Since every
record operation guards against the None sentinel before touching the
store, record keys are modelled by the pair (resource type, id) and
subscription keys by the alert type. -/

/-- Association-list lookup (the `GetVal` of a keyed KV subtree: `some` =
key present, `none` = `ErrNotFound`). -/
def lookupA {α β : Type} [DecidableEq α] : List (α × β) → α → Option β
  | [], _ => Option.none
  | (k, v) :: rest, key => if k = key then some v else lookupA rest key

/-- Association-list in-place replacement (the `Update` of a present
key: the value stored under `key` is overwritten, nothing else moves). -/
def replaceA {α β : Type} [DecidableEq α] (l : List (α × β)) (key : α) (v : β) :
    List (α × β) :=
  l.map (fun e => if e.1 = key then (key, v) else e)

/-- State of one cluster namespace's alert subtree: the subscription
lists keyed by parent alert type, the alert records keyed by
(resource partition, id) each carrying the KV-level ttl it was written
with, and the allocator counter key. -/
structure AlertStore where
  subscriptions : List (Int × List Alert)
  records : List ((ResourceType × Int) × (Alert × Nat))
  nextId : Option Int
deriving DecidableEq, Repr

/-- Sequential execution of `getNextIDFromKVDB` (no interference, so the
`Create` either succeeds or the first `CompareAndSet` does — exactly the
`getNextIDRun` runs proved in the allocator section). -/
def getNextIDSeq (st : AlertStore) : AlertStore × Int :=
  match st.nextId with
  | Option.none => ({ st with nextId := some 1 }, 0)
  | some n => ({ st with nextId := some (n + 1) }, n)

/-- The private `raise` (alert_kvdb.go 287-303): reject the None
sentinel, allocate a fresh id, stamp `Id`/`Timestamp`/`Cleared`, then
`Create` (never overwrite) the record under its resource key with the
alert's own ttl. -/
def raise (now : Int) (st : AlertStore) (a : Alert) : AlertStore × Option Err :=
  if a.Resource = ResourceType.none then (st, some Err.resourceNotFound)
  else
    let si := getNextIDSeq st
    let a2 : Alert := { a with Id := si.2, Timestamp := now, Cleared := false }
    match lookupA si.1.records (a.Resource, si.2) with
    | some _ => (si.1, some Err.keyExists)
    | Option.none =>
      ({ si.1 with records := ((a.Resource, si.2), (a2, a2.Ttl)) :: si.1.records },
       Option.none)

mutual

/-- The exported `Raise` (alert_kvdb.go 104-119): first look up the
subscription list for the alert's type (`ErrNotFound` means no
subscriptions and is swallowed), raise every subscribed child through the
recursive `Raise` — a child failure aborts with `ErrSubscribedRaise` —
and only then run the private `raise` on the argument.  The recursion
through subscription chains is bounded by an explicit fuel (the Go code
would loop forever on a subscription cycle). -/
def RaiseFuel : Nat → Int → AlertStore → Alert → AlertStore × Option Err
  | 0, _, st, _ => (st, some Err.outOfFuel)
  | Nat.succ fuel, now, st, a =>
    match lookupA st.subscriptions a.AlertType with
    | Option.none => raise now st a
    | some subs =>
      match raiseSubs fuel now st subs with
      | (st2, true) => raise now st2 a
      | (st2, false) => (st2, some Err.subscribedRaise)

/-- The subscription loop of `Raise`: raise the children in order,
stopping at the first failure (`false` = some child raise failed). -/
def raiseSubs : Nat → Int → AlertStore → List Alert → AlertStore × Bool
  | _, _, st, [] => (st, true)
  | fuel, now, st, x :: xs =>
    match RaiseFuel fuel now st x with
    | (st2, Option.none) => raiseSubs fuel now st2 xs
    | (st2, some _) => (st2, false)

end

/-- The private `clear` (alert_kvdb.go 305-318): reject the None
sentinel, `GetVal` the record (propagating `ErrNotFound` when absent),
set `Cleared := true` and write it back with the given ttl via the
unconditional `Update`. -/
def clear (st : AlertStore) (resourceType : ResourceType) (alertID : Int)
    (ttl : Nat) : AlertStore × Option Err :=
  if resourceType = ResourceType.none then (st, some Err.resourceNotFound)
  else
    match lookupA st.records (resourceType, alertID) with
    | Option.none => (st, some Err.notFound)
    | some av =>
      let a2 : Alert := { av.1 with Cleared := true }
      ({ st with records := replaceA st.records (resourceType, alertID) (a2, ttl) },
       Option.none)

/-! ### Enumeration (enumerate / getAllAlerts, alert_kvdb.go 339-414)

`getResourceSpecificAlerts` enumerates one partition and unmarshals every
value; any failure (of the `Enumerate` itself or of one unmarshal) makes
the whole partition fail.  A partition is therefore modelled as
`Option (List Alert)`: `none` = the partition enumeration fails,
`some l` = it yields `l`. -/

/-- Enumeration view of one cluster's four alert partitions. -/
structure EnumStore where
  nodeAlerts : Option (List Alert)
  volumeAlerts : Option (List Alert)
  clusterAlerts : Option (List Alert)
  driveAlerts : Option (List Alert)
deriving DecidableEq, Repr

/-- Partition selected by `getResourceKey`: Volume/Node/Cluster each have
their own subtree and every other resource type (Drive, and None which no
caller reaches) falls through to the drive subtree. -/
def getResourceSpecificAlerts (st : EnumStore) : ResourceType → Option (List Alert)
  | ResourceType.volume => st.volumeAlerts
  | ResourceType.node => st.nodeAlerts
  | ResourceType.cluster => st.clusterAlerts
  | _ => st.driveAlerts

/-- `getAllAlerts` (alert_kvdb.go 356-387): enumerate the node, volume,
cluster and drive partitions in that order, appending each partition's
alerts only when its enumeration succeeded (a per-partition failure is
swallowed), and report `No alert raised yet` when the union is empty. -/
def getAllAlerts (st : EnumStore) : List Alert × Option Err :=
  let l0 : List Alert := []
  let l1 := match getResourceSpecificAlerts st ResourceType.node with
    | some l => l0 ++ l
    | Option.none => l0
  let l2 := match getResourceSpecificAlerts st ResourceType.volume with
    | some l => l1 ++ l
    | Option.none => l1
  let l3 := match getResourceSpecificAlerts st ResourceType.cluster with
    | some l => l2 ++ l
    | Option.none => l2
  let l4 := match getResourceSpecificAlerts st ResourceType.drive with
    | some l => l3 ++ l
    | Option.none => l3
  if l4.length > 0 then (l4, Option.none) else ([], some Err.noAlertRaisedYet)

/-- `enumerate` (alert_kvdb.go 389-414): a concrete resource filter scans
only that partition (its failure is returned); resource None scans all
four partitions through `getAllAlerts`; a non-zero severity filter then
keeps exactly the alerts whose severity is numerically ≤ the filter's. -/
def enumerate (st : EnumStore) (filter : Alert) : List Alert × Option Err :=
  if filter.Resource ≠ ResourceType.none then
    match getResourceSpecificAlerts st filter.Resource with
    | Option.none => ([], some Err.kvError)
    | some l =>
      if filter.Severity ≠ 0 then
        (l.filter (fun v => v.Severity ≤ filter.Severity), Option.none)
      else (l, Option.none)
  else
    let r := getAllAlerts st
    if filter.Severity ≠ 0 then
      (r.1.filter (fun v => v.Severity ≤ filter.Severity), r.2)
    else r

/-- Best-effort union of the four partitions, failures swallowed (the
spec's description of the None-resource scan). -/
def partitionUnion (st : EnumStore) : List Alert :=
  st.nodeAlerts.getD [] ++ st.volumeAlerts.getD [] ++
    st.clusterAlerts.getD [] ++ st.driveAlerts.getD []

/-! ### Watch subsystem (kvdbWatch, alert_kvdb.go 432-506)

`kvdbWatch` is the callback the KV store invokes once per mutation under
the alert subtree (or with a delivery error).  Its process-wide state is
the watcher map keyed by cluster id and the single shared `watchErrors`
counter.  The cluster id is recovered from the mutation's key path (the
`strings.Split(prefix, "/")[1]` of the source); the model passes it
directly.  Key classification uses the same suffix/substring tests as the
source.  Registered callbacks are modelled as returning nil, and callback
invocations are recorded as (cluster, alert, action tag) triples. -/

/-- Watcher status (`watcherStatus`, alert_kvdb.go 34-38). -/
inductive WatcherStatus
  | watchBootstrap
  | watchReady
  | watchError
deriving DecidableEq, Repr

/-- Mutation kinds delivered by the KV store's `WatchTree`. -/
inductive KVAction
  | kvCreate
  | kvSet
  | kvDelete
  | kvUnknown
deriving DecidableEq, Repr

/-- Process-wide watch state: `watcherMap` and the shared `watchErrors`
counter (alert_kvdb.go 40-45). -/
structure WatchState where
  watcherMap : List (String × WatcherStatus)
  watchErrors : Nat
deriving DecidableEq, Repr

/-- One invocation of the watch callback: the cluster recovered from the
key path, whether this delivery is an error, the mutated key, the
mutation kind, and the value (`none` = the bytes do not unmarshal as an
`Alert`). -/
structure Delivery where
  cluster : String
  deliveryErr : Bool
  key : String
  action : KVAction
  value : Option Alert
deriving DecidableEq, Repr

/-- Observable outcome of one `kvdbWatch` invocation: the new process
state, the registered-callback invocations it performed, whether it
attempted a `subscribeWatch` resubscription, and whether it returned a
non-nil error to the watch library. -/
structure WatchOut where
  state : WatchState
  callbacks : List (String × Option Alert × AlertActionType)
  resubscribed : Bool
  returnedErr : Bool
deriving DecidableEq, Repr

/-- Character-list prefix test (avoids any dependence on `String`
internals; used only to implement the suffix/substring key tests). -/
def leadsWith : List Char → List Char → Bool
  | [], _ => true
  | _ :: _, [] => false
  | a :: as, b :: bs => a == b && leadsWith as bs

/-- `strings.HasSuffix`. -/
def strHasSuffix (s suf : String) : Bool :=
  leadsWith suf.data.reverse s.data.reverse

/-- Substring occurrence over character lists. -/
def containsSeg (sub : List Char) : List Char → Bool
  | [] => leadsWith sub []
  | c :: rest => leadsWith sub (c :: rest) || containsSeg sub rest

/-- `strings.Contains`. -/
def strContainsSub (s sub : String) : Bool :=
  containsSeg sub.data s.data

/-- Key constant `bootstrap` (alert_kvdb.go 29). -/
def bootstrapMarker : String := "bootstrap"

/-- Key constant `nextAlertId` (alert_kvdb.go 24). -/
def nextAlertIDKey : String := "nextAlertId"

/-- Key constant `subscriptions` (alert_kvdb.go 23). -/
def subscriptionsKey : String := "subscriptions"

/-- `kvdbWatch` (alert_kvdb.go 432-491), one delivery.  In source order:
an error-free mutation of the bootstrap marker key sets the cluster's
watcher to Ready and returns nil; a delivery error while the watcher is
in Bootstrap makes it terminal Error; a delivery error otherwise either
gives up when the shared counter already reads 5 (one callback invocation
with a null alert and the no-op tag) or increments the counter and
resubscribes; mutations of the allocator or subscription keys are
ignored; every other error-free mutation resets the shared counter to 0
and dispatches Delete (null alert) / Create / Update to the callback,
with unmarshal failures and unhandled mutation kinds returned as errors.
`none` models the nil-pointer panic the Go code would hit when no watcher
is registered for the cluster (unreachable through `Watch`). -/
def kvdbWatch (s : WatchState) (d : Delivery) : Option WatchOut :=
  if !d.deliveryErr && strHasSuffix d.key bootstrapMarker then
    match lookupA s.watcherMap d.cluster with
    | Option.none => Option.none
    | some _ =>
      some ⟨⟨replaceA s.watcherMap d.cluster WatcherStatus.watchReady, s.watchErrors⟩,
        [], false, false⟩
  else if d.deliveryErr then
    match lookupA s.watcherMap d.cluster with
    | Option.none => Option.none
    | some ws =>
      if ws = WatcherStatus.watchBootstrap then
        some ⟨⟨replaceA s.watcherMap d.cluster WatcherStatus.watchError, s.watchErrors⟩,
          [], false, true⟩
      else if s.watchErrors = 5 then
        some ⟨s, [(d.cluster, Option.none, AlertActionType.actionNone)], false, true⟩
      else
        some ⟨⟨s.watcherMap, s.watchErrors + 1⟩, [], true, true⟩
  else if strHasSuffix d.key nextAlertIDKey || strContainsSub d.key subscriptionsKey then
    some ⟨s, [], false, false⟩
  else
    let s2 : WatchState := ⟨s.watcherMap, 0⟩
    match lookupA s2.watcherMap d.cluster with
    | Option.none => Option.none
    | some _ =>
      if d.action = KVAction.kvDelete then
        some ⟨s2, [(d.cluster, Option.none, AlertActionType.actionDelete)], false, false⟩
      else
        match d.value with
        | Option.none => some ⟨s2, [], false, true⟩
        | some a =>
          match d.action with
          | KVAction.kvCreate =>
            some ⟨s2, [(d.cluster, some a, AlertActionType.actionCreate)], false, false⟩
          | KVAction.kvSet =>
            some ⟨s2, [(d.cluster, some a, AlertActionType.actionUpdate)], false, false⟩
          | _ => some ⟨s2, [], false, true⟩

/-- A watch session together with its observation log: `watchAlive` is
whether the KV store still delivers to this session — returning a non-nil
error from the callback ends the current `WatchTree` subscription, and
only a resubscription made during that invocation keeps deliveries
coming. `cbLog` accumulates the registered-callback invocations and
`resubCount` the resubscription attempts. -/
structure RunState where
  ws : WatchState
  watchAlive : Bool
  cbLog : List (String × Option Alert × AlertActionType)
  resubCount : Nat
deriving DecidableEq, Repr

/-- Feed a sequence of deliveries to `kvdbWatch`, stopping deliveries
once the session is no longer alive (`none` = the nil-watcher panic). -/
def runDeliveries : RunState → List Delivery → Option RunState
  | rs, [] => some rs
  | rs, d :: ds =>
    if rs.watchAlive then
      match kvdbWatch rs.ws d with
      | Option.none => Option.none
      | some out =>
        runDeliveries
          ⟨out.state,
            (if out.returnedErr then out.resubscribed else true),
            rs.cbLog ++ out.callbacks,
            rs.resubCount + (if out.resubscribed then 1 else 0)⟩ ds
    else some rs

/-- An error delivery for one cluster (the key and action carried by an
errored delivery are never inspected by `kvdbWatch`). -/
def errDelivery (c : String) : Delivery :=
  ⟨c, true, "", KVAction.kvSet, Option.none⟩

lemma runDeliveries_dead (rs : RunState) (ds : List Delivery)
    (h : rs.watchAlive = false) : runDeliveries rs ds = some rs := by
  cases ds with
  | nil => rfl
  | cons d ds => simp [runDeliveries, h]

/-! ### Cluster state store (cluster/database.go)

`readClusterInfo` and `snapAndReadClusterInfo` read the fixed key
`cluster/database`.  The struct declarations (`ClusterInfo`, `NodeEntry`,
`ClusterInitState`, `api.Status`) live outside the provided sources, so
they are modelled from the spec.  A stored value is either the literal
`{}` sentinel, a JSON encoding of a `ClusterInfo`, or malformed bytes;
a read either fails with the `Key not found` sentinel (matched by error
text in the source), fails otherwise, or yields a value. -/

/-- Modelled from the spec: the `api.Status` lifecycle enumeration
(`Init`/`Ok`/`Error`); the declaration is outside the provided sources. -/
inductive ApiStatus
  | statusInit
  | statusOk
  | statusError
deriving DecidableEq, Repr

/-- Modelled from the spec: `NodeEntry` is opaque node metadata; the
declaration is outside the provided sources. -/
structure NodeEntry where
  nodeData : String
deriving DecidableEq, Repr

/-- Modelled from the spec: `ClusterInfo` is the cluster-wide descriptor
with a lifecycle `Status` and the node-id-keyed `NodeEntries` mapping;
the declaration is outside the provided sources. -/
structure ClusterInfo where
  Status : ApiStatus
  NodeEntries : List (String × NodeEntry)
deriving DecidableEq, Repr

/-- Possible contents of the `cluster/database` value. -/
inductive DBValue
  | emptyObj
  | info (ci : ClusterInfo)
  | malformed
deriving DecidableEq, Repr

/-- Outcome of a `Get` of the cluster key (live or against a snapshot). -/
inductive GetOutcome
  | notFound
  | otherErr
  | found (v : DBValue)
deriving DecidableEq, Repr

/-- The `db` value both readers start from: `Status = Init` and an empty
node mapping. -/
def defaultClusterInfo : ClusterInfo := ⟨ApiStatus.statusInit, []⟩

/-- `readClusterInfo` (cluster/database.go 62-86): a get error other than
the `Key not found` sentinel is returned with the default descriptor; an
absent key or the literal `{}` value yields the default descriptor with
no error; otherwise the value is unmarshalled, a decode failure being
returned together with the (default) descriptor. -/
def readClusterInfo : GetOutcome → ClusterInfo × Option Err
  | GetOutcome.otherErr => (defaultClusterInfo, some Err.kvError)
  | GetOutcome.notFound => (defaultClusterInfo, Option.none)
  | GetOutcome.found DBValue.emptyObj => (defaultClusterInfo, Option.none)
  | GetOutcome.found (DBValue.info ci) => (ci, Option.none)
  | GetOutcome.found DBValue.malformed => (defaultClusterInfo, some Err.unmarshal)

/-- A KV snapshot handle: the frozen view of the cluster key it serves
(`snap.Get(ClusterDBKey)` reads this view, never the live store). -/
structure SnapHandle where
  view : GetOutcome
deriving DecidableEq, Repr

/-- Modelled from the spec: an update collector buffers every mutation at
or after the version it was anchored at; only the anchor version is
relevant here. The declaration is outside the provided sources. -/
structure UpdatesCollector where
  sinceVersion : Nat
deriving DecidableEq, Repr

/-- Modelled from the spec: `ClusterInitState` bundles the frozen
descriptor, the snapshot handle (`InitDb`), the snapshot version, and the
collector anchored at that version. The declaration is outside the
provided sources; field usage mirrors cluster/database.go 43-48. -/
structure ClusterInitState where
  clusterInfo : ClusterInfo
  initDb : SnapHandle
  version : Nat
  collector : UpdatesCollector
deriving DecidableEq, Repr

/-- KV-store operations `snapAndReadClusterInfo` can perform, in the
order it performs them (recorded as an effect trace). -/
inductive SnapEffect
  | effSnapshot
  | effNewCollector
  | effSnapGet
  | effUnmarshal
deriving DecidableEq, Repr

/-- Environment of one `snapAndReadClusterInfo` call: the outcome of
`kv.Snapshot` (`none` = failure), whether `NewUpdatesCollector`
succeeds, and what a live read would currently see (unused by the
function — the decode works on the snapshot's frozen view). -/
structure SnapWorld where
  snapResult : Option (SnapHandle × Nat)
  collectorOk : Bool
  liveDb : GetOutcome
deriving DecidableEq, Repr

/-- `snapAndReadClusterInfo` (cluster/database.go 18-60): snapshot the
store, then start the update collector anchored at the snapshot version —
either failure is returned at once with no state — then read the cluster
key from the snapshot (a non-`Key not found` failure is returned with no
state), build the `ClusterInitState` from the default descriptor, the
snapshot handle, its version and the collector, and finally decode the
snapshotted value with the same absent/empty/decode handling as
`readClusterInfo`.  The second component is the trace of KV operations
performed. -/
def snapAndReadClusterInfo (w : SnapWorld) :
    (Option ClusterInitState × Option Err) × List SnapEffect :=
  match w.snapResult with
  | Option.none => ((Option.none, some Err.kvError), [SnapEffect.effSnapshot])
  | some (snap, version) =>
    if !w.collectorOk then
      ((Option.none, some Err.kvError),
       [SnapEffect.effSnapshot, SnapEffect.effNewCollector])
    else
      let state : ClusterInitState := ⟨defaultClusterInfo, snap, version, ⟨version⟩⟩
      match snap.view with
      | GetOutcome.otherErr =>
        ((Option.none, some Err.kvError),
         [SnapEffect.effSnapshot, SnapEffect.effNewCollector, SnapEffect.effSnapGet])
      | GetOutcome.notFound =>
        ((some state, Option.none),
         [SnapEffect.effSnapshot, SnapEffect.effNewCollector, SnapEffect.effSnapGet])
      | GetOutcome.found DBValue.emptyObj =>
        ((some state, Option.none),
         [SnapEffect.effSnapshot, SnapEffect.effNewCollector, SnapEffect.effSnapGet])
      | GetOutcome.found (DBValue.info ci) =>
        ((some { state with clusterInfo := ci }, Option.none),
         [SnapEffect.effSnapshot, SnapEffect.effNewCollector, SnapEffect.effSnapGet,
          SnapEffect.effUnmarshal])
      | GetOutcome.found DBValue.malformed =>
        ((some state, some Err.unmarshal),
         [SnapEffect.effSnapshot, SnapEffect.effNewCollector, SnapEffect.effSnapGet,
          SnapEffect.effUnmarshal])

/-! ## Claim theorems -/

/-- C1: the alert identifier allocator `getNextIDFromKVDB`, stepped one
atomic KV operation at a time: a successful creation of the counter key
with value 1 returns id 0; when creation fails because the key exists the
allocator reads the current value `n`, attempts a compare-and-set storing
`n + 1` that succeeds exactly when the stored bytes still equal the read,
returns the pre-increment read value on success and goes back to the read
on a CAS conflict; a read failure in the loop is fatal and yields the
allocator-not-initialized error with id -1.  The last conjunct runs the
interference-free loop end to end. -/
theorem C1_getNextIDFromKVDB :
    (getNextIDStep Option.none AllocPhase.start = (some 1, AllocPhase.done 0) ∧
      allocReturn (AllocPhase.done 0) = some (0, Option.none)) ∧
    (∀ n : Int, getNextIDStep (some n) AllocPhase.start = (some n, AllocPhase.loopRead)) ∧
    (∀ n : Int, getNextIDStep (some n) AllocPhase.loopRead = (some n, AllocPhase.loopCas n)) ∧
    (∀ (store : Option Int) (v : Int), store = some v →
      getNextIDStep store (AllocPhase.loopCas v) = (some (v + 1), AllocPhase.done v)) ∧
    (∀ (store : Option Int) (v : Int), store ≠ some v →
      getNextIDStep store (AllocPhase.loopCas v) = (store, AllocPhase.loopRead)) ∧
    (getNextIDStep Option.none AllocPhase.loopRead = (Option.none, AllocPhase.failed) ∧
      allocReturn AllocPhase.failed = some (-1, some Err.notInitialized)) ∧
    (∀ n : Int, getNextIDRun (some n) AllocPhase.start 3 = (some (n + 1), AllocPhase.done n)) := by
  refine ⟨⟨rfl, rfl⟩, fun n => rfl, fun n => rfl, ?_, ?_, ⟨rfl, rfl⟩, ?_⟩
  · intro store v h
    subst h
    simp [getNextIDStep]
  · intro store v h
    simp [getNextIDStep, h]
  · intro n
    simp [getNextIDRun, getNextIDStep]

/-- C1 witness: a CAS round against an unchanged counter 7 succeeds
storing 8 and returning 7; against a counter that moved to 9 it
conflicts and loops back to the read. -/
theorem C1_witness :
    getNextIDStep (some 7) (AllocPhase.loopCas 7) = (some 8, AllocPhase.done 7) ∧
    getNextIDStep (some 9) (AllocPhase.loopCas 7) = (some 9, AllocPhase.loopRead) :=
  ⟨C1_getNextIDFromKVDB.2.2.2.1 (some 7) 7 rfl,
   C1_getNextIDFromKVDB.2.2.2.2.1 (some 9) 7 (by decide)⟩

/-- C2: any number of concurrent `Raise` calls against one cluster
namespace allocate through `getNextIDFromKVDB` on the shared counter key;
under every interleaving, any two processes that completed their
allocation hold distinct identifiers — identifiers are never reused. -/
theorem C2_allocated_ids_distinct (n : Nat) (sched : List Nat) (i j : Nat) (v w : Int)
    (hij : i ≠ j)
    (hi : (runSys ⟨Option.none, List.replicate n AllocPhase.start⟩ sched).procs[i]? =
      some (AllocPhase.done v))
    (hj : (runSys ⟨Option.none, List.replicate n AllocPhase.start⟩ sched).procs[j]? =
      some (AllocPhase.done w)) :
    v ≠ w :=
  (allocInv_run _ sched (allocInv_init n)).2 i j v w hij hi hj

/-- C2 witness: two allocators run to completion under a concrete
schedule; the first obtains id 0 by creating the key, the second id 1 by
CAS, and the theorem yields their distinctness. -/
theorem C2_witness :
    (runSys ⟨Option.none, List.replicate 2 AllocPhase.start⟩ [0, 1, 1, 1]).procs[0]? =
      some (AllocPhase.done 0) ∧
    (runSys ⟨Option.none, List.replicate 2 AllocPhase.start⟩ [0, 1, 1, 1]).procs[1]? =
      some (AllocPhase.done 1) ∧
    (0 : Int) ≠ 1 :=
  ⟨by decide, by decide,
   C2_allocated_ids_distinct 2 [0, 1, 1, 1] 0 1 0 1 (by decide) (by decide) (by decide)⟩

/-- A single Ready watcher for cluster c1 with a zeroed error counter. -/
def readyState1 : WatchState := ⟨[("c1", WatcherStatus.watchReady)], 0⟩

/-- C3 counterexample: a Ready watcher that receives exactly 5
consecutive delivery errors has NOT given up — the registered callback
was never invoked (so not "exactly once with a null alert"), the watch is
still alive, and 5 resubscription attempts were made; the give-up branch
fires only on the 6th consecutive error, because `kvdbWatch` tests
`watchErrors == 5` before incrementing the counter. -/
theorem C3_counterexample :
    runDeliveries ⟨readyState1, true, [], 0⟩ (List.replicate 5 (errDelivery "c1")) =
      some ⟨⟨[("c1", WatcherStatus.watchReady)], 5⟩, true, [], 5⟩ := by decide

lemma kvdbWatch_err_ready (s : WatchState) (c : String) (ws : WatcherStatus)
    (hw : lookupA s.watcherMap c = some ws) (hb : ws ≠ WatcherStatus.watchBootstrap)
    (h5 : s.watchErrors ≠ 5) :
    kvdbWatch s (errDelivery c) =
      some ⟨⟨s.watcherMap, s.watchErrors + 1⟩, [], true, true⟩ := by
  simp [kvdbWatch, errDelivery, hw, hb, h5]

lemma kvdbWatch_err_giveup (s : WatchState) (c : String) (ws : WatcherStatus)
    (hw : lookupA s.watcherMap c = some ws) (hb : ws ≠ WatcherStatus.watchBootstrap)
    (h5 : s.watchErrors = 5) :
    kvdbWatch s (errDelivery c) =
      some ⟨s, [(c, Option.none, AlertActionType.actionNone)], false, true⟩ := by
  simp [kvdbWatch, errDelivery, hw, hb, h5]

/-- C3 amended: for a Ready watcher with a zeroed counter it takes 6
consecutive delivery errors to exhaust the budget (the give-up check
`watchErrors == 5` runs before the increment): errors 1-5 each trigger
exactly one resubscription attempt, the 6th invokes the registered
callback exactly once with a null alert and the no-op action tag without
resubscribing, and no further delivery occurs afterwards. -/
theorem C3_amended (c : String) (extra : List Delivery) :
    runDeliveries ⟨⟨[(c, WatcherStatus.watchReady)], 0⟩, true, [], 0⟩
        (List.replicate 6 (errDelivery c) ++ extra) =
      some ⟨⟨[(c, WatcherStatus.watchReady)], 5⟩, false,
        [(c, Option.none, AlertActionType.actionNone)], 5⟩ := by
  have hl : lookupA [(c, WatcherStatus.watchReady)] c = some WatcherStatus.watchReady := by
    simp [lookupA]
  have step : ∀ k : Nat, k ≠ 5 →
      kvdbWatch ⟨[(c, WatcherStatus.watchReady)], k⟩ (errDelivery c) =
        some ⟨⟨[(c, WatcherStatus.watchReady)], k + 1⟩, [], true, true⟩ :=
    fun k hk => kvdbWatch_err_ready ⟨[(c, WatcherStatus.watchReady)], k⟩ c _ hl (by decide) hk
  have giveup : kvdbWatch ⟨[(c, WatcherStatus.watchReady)], 5⟩ (errDelivery c) =
      some ⟨⟨[(c, WatcherStatus.watchReady)], 5⟩,
        [(c, Option.none, AlertActionType.actionNone)], false, true⟩ :=
    kvdbWatch_err_giveup ⟨[(c, WatcherStatus.watchReady)], 5⟩ c _ hl (by decide) rfl
  show runDeliveries ⟨⟨[(c, WatcherStatus.watchReady)], 0⟩, true, [], 0⟩
      (errDelivery c :: errDelivery c :: errDelivery c :: errDelivery c :: errDelivery c ::
        errDelivery c :: extra) = _
  simp only [runDeliveries, step 0 (by decide), step 1 (by decide), step 2 (by decide),
    step 3 (by decide), step 4 (by decide), giveup, if_true]
  simp [runDeliveries_dead]

/-- Subscribed child used in the C4 counterexample. -/
def c4Child : Alert := ⟨0, ResourceType.node, 1, 9, 0, false, 0⟩

/-- None-resource parent alert used in the C4 counterexample. -/
def c4Parent : Alert := ⟨0, ResourceType.none, 3, 7, 0, false, 0⟩

/-- Store with one subscription registered under the parent's type 7. -/
def c4Store : AlertStore := ⟨[(7, [c4Child])], [], Option.none⟩

/-- C4 counterexample: raising a None-resource alert whose type has a
registered subscription does fail with resource-not-found, but only
AFTER the subscription processing: the subscribed child has been raised
and the alert store has changed, so the sentinel check does not precede
the subscription lookup. -/
theorem C4_counterexample :
    (RaiseFuel 2 100 c4Store c4Parent).2 = some Err.resourceNotFound ∧
    (RaiseFuel 2 100 c4Store c4Parent).1 ≠ c4Store ∧
    lookupA (RaiseFuel 2 100 c4Store c4Parent).1.records (ResourceType.node, 0) =
      some ({ c4Child with Id := 0, Timestamp := 100, Cleared := false }, 0) := by
  refine ⟨?_, ?_, ?_⟩ <;>
    simp [RaiseFuel, raiseSubs, raise, getNextIDSeq, lookupA, c4Store, c4Parent, c4Child]

/-- C4 amended: for an alert whose resource type is the None sentinel,
`Raise` does ultimately fail — with the resource-not-found error when the
type has no subscriptions or every subscribed child raise succeeds, and
with the subscribed-raise error when a child raise fails — but the
subscription lookup and the raising of subscribed children precede the
sentinel check, so the store may be mutated; only the direct `raise` step
itself rejects the sentinel before touching the store. -/
theorem C4_amended (fuel : Nat) (now : Int) (st : AlertStore) (a : Alert)
    (h : a.Resource = ResourceType.none) :
    raise now st a = (st, some Err.resourceNotFound) ∧
    RaiseFuel (fuel + 1) now st a =
      (match lookupA st.subscriptions a.AlertType with
       | Option.none => (st, some Err.resourceNotFound)
       | some subs =>
         match raiseSubs fuel now st subs with
         | (st2, true) => (st2, some Err.resourceNotFound)
         | (st2, false) => (st2, some Err.subscribedRaise)) := by
  have hr : ∀ st' : AlertStore, raise now st' a = (st', some Err.resourceNotFound) := by
    intro st'
    simp [raise, h]
  refine ⟨hr st, ?_⟩
  show RaiseFuel (Nat.succ fuel) now st a = _
  rw [RaiseFuel]
  cases hsub : lookupA st.subscriptions a.AlertType with
  | none => simpa using hr st
  | some subs =>
    cases hrs : raiseSubs fuel now st subs with
    | mk st2 ok =>
      cases ok <;> simp [hrs, hr st2]

/-- C4 witness: the direct `raise` of the None-resource parent rejects it
with resource-not-found leaving the store unchanged. -/
theorem C4_witness :
    raise 100 c4Store c4Parent = (c4Store, some Err.resourceNotFound) :=
  (C4_amended 1 100 c4Store c4Parent (by decide)).1

lemma ifLen (l : List Alert) :
    (if l.length > 0 then (l, (Option.none : Option Err))
     else ([], some Err.noAlertRaisedYet)) =
      if l = [] then ([], some Err.noAlertRaisedYet) else (l, Option.none) := by
  by_cases h : l = []
  · subst h
    simp
  · simp [h, List.length_pos.mpr h]

lemma getAllAlerts_eq (st : EnumStore) :
    getAllAlerts st =
      if partitionUnion st = [] then ([], some Err.noAlertRaisedYet)
      else (partitionUnion st, Option.none) := by
  obtain ⟨n, v, c, d⟩ := st
  cases n <;> cases v <;> cases c <;> cases d <;>
    simp [getAllAlerts, partitionUnion, getResourceSpecificAlerts] <;>
    (try (split_ifs with h1 h2 <;> simp_all [List.length_pos, not_or]))

/-- C5: `enumerate` with a non-zero severity filter S returns exactly the
alerts of the corresponding unfiltered enumeration whose severity is
numerically ≤ S (same error outcome); with resource None (and no severity
restriction) it returns the best-effort union of the node, volume,
cluster and drive partitions, per-partition failures swallowed; and under
resource None it reports the "no alerts raised yet" error exactly when
that union is empty, never an empty success. -/
theorem C5_enumerate :
    (∀ (st : EnumStore) (f : Alert), f.Severity ≠ 0 →
      (enumerate st f).1 =
        (enumerate st { f with Severity := 0 }).1.filter
          (fun v => v.Severity ≤ f.Severity) ∧
      (enumerate st f).2 = (enumerate st { f with Severity := 0 }).2) ∧
    (∀ (st : EnumStore) (f : Alert), f.Resource = ResourceType.none → f.Severity = 0 →
      (enumerate st f).1 = partitionUnion st) ∧
    (∀ (st : EnumStore) (f : Alert), f.Resource = ResourceType.none →
      ((enumerate st f).2 = some Err.noAlertRaisedYet ↔ partitionUnion st = [])) := by
  refine ⟨?_, ?_, ?_⟩
  · intro st f hs
    by_cases hr : f.Resource = ResourceType.none
    · by_cases hu : partitionUnion st = [] <;>
        simp [enumerate, hr, hs, getAllAlerts_eq, hu]
    · cases hq : getResourceSpecificAlerts st f.Resource with
      | none => simp [enumerate, hr, hq, hs]
      | some l => simp [enumerate, hr, hq, hs]
  · intro st f hr hs
    by_cases hu : partitionUnion st = [] <;>
      simp [enumerate, hr, hs, getAllAlerts_eq, hu]
  · intro st f hr
    by_cases hu : partitionUnion st = [] <;>
      by_cases hs : f.Severity = 0 <;>
        simp [enumerate, hr, hs, getAllAlerts_eq, hu]

/-- Drive alert used by the C5 witness. -/
def c5Drive : Alert := ⟨1, ResourceType.drive, 4, 2, 10, false, 0⟩

/-- Node alert used by the C5 witness. -/
def c5Node : Alert := ⟨2, ResourceType.node, 1, 2, 11, false, 0⟩

/-- Enumeration view used by the C5 witness: the volume partition fails,
the others hold one node and one drive alert. -/
def c5Store : EnumStore := ⟨some [c5Node], Option.none, some [], some [c5Drive]⟩

/-- Severity-2, resource-None filter used by the C5 witness. -/
def c5Filter : Alert := ⟨0, ResourceType.none, 2, 0, 0, false, 0⟩

/-- C5 witness: with severity filter 2 over the None-resource scan the
result is the severity-filtered best-effort union. -/
theorem C5_witness :
    (enumerate c5Store c5Filter).1 =
      (enumerate c5Store { c5Filter with Severity := 0 }).1.filter
        (fun v => v.Severity ≤ c5Filter.Severity) :=
  (C5_enumerate.1 c5Store c5Filter (by decide)).1

/-- C6: `readClusterInfo` on a store where the cluster key is absent, or
holds the literal empty-object encoding, returns the descriptor with
`Status = Init` and an empty node-entry mapping, with no error. -/
theorem C6_readClusterInfo_uninitialized :
    readClusterInfo GetOutcome.notFound =
      (⟨ApiStatus.statusInit, []⟩, Option.none) ∧
    readClusterInfo (GetOutcome.found DBValue.emptyObj) =
      (⟨ApiStatus.statusInit, []⟩, Option.none) :=
  ⟨rfl, rfl⟩

/-- C7: `snapAndReadClusterInfo` snapshots first, then starts the update
collector anchored at the snapshot version; a failure of either step is
returned with no state before any read or decode of the snapshotted value
(the effect trace stops at the failing step); on success the returned
`ClusterInitState` carries the descriptor obtained from the snapshotted
value with exactly the absent/empty/decode handling of
`readClusterInfo`, plus the snapshot handle, its version, and the
collector bound to that version; and the live store content is never
consulted. -/
theorem C7_snapAndReadClusterInfo :
    (∀ w : SnapWorld, w.snapResult = Option.none →
      snapAndReadClusterInfo w =
        ((Option.none, some Err.kvError), [SnapEffect.effSnapshot])) ∧
    (∀ (w : SnapWorld) (snap : SnapHandle) (version : Nat),
      w.snapResult = some (snap, version) → w.collectorOk = false →
      snapAndReadClusterInfo w =
        ((Option.none, some Err.kvError),
         [SnapEffect.effSnapshot, SnapEffect.effNewCollector])) ∧
    (∀ (w : SnapWorld) (snap : SnapHandle) (version : Nat),
      w.snapResult = some (snap, version) → w.collectorOk = true →
      ((snapAndReadClusterInfo w).1.2 = (readClusterInfo snap.view).2 ∧
       (∀ stt : ClusterInitState, (snapAndReadClusterInfo w).1.1 = some stt →
         stt.clusterInfo = (readClusterInfo snap.view).1 ∧ stt.initDb = snap ∧
         stt.version = version ∧ stt.collector = ⟨version⟩) ∧
       ((snapAndReadClusterInfo w).1.1 = Option.none ↔
         snap.view = GetOutcome.otherErr))) ∧
    (∀ (w : SnapWorld) (v : GetOutcome),
      snapAndReadClusterInfo { w with liveDb := v } = snapAndReadClusterInfo w) := by
  refine ⟨?_, ?_, ?_, ?_⟩
  · intro w h
    simp [snapAndReadClusterInfo, h]
  · intro w snap version h hc
    simp [snapAndReadClusterInfo, h, hc]
  · intro w snap version h hc
    obtain ⟨sv⟩ := snap
    cases sv with
    | notFound =>
      simp [snapAndReadClusterInfo, h, hc, readClusterInfo]
    | otherErr =>
      simp [snapAndReadClusterInfo, h, hc, readClusterInfo]
    | found dv =>
      cases dv <;> simp [snapAndReadClusterInfo, h, hc, readClusterInfo]
  · intro w v
    obtain ⟨sr, co, ld⟩ := w
    cases sr with
    | none => rfl
    | some p =>
      obtain ⟨snap, version⟩ := p
      cases co with
      | false => rfl
      | true =>
        obtain ⟨sv⟩ := snap
        cases sv with
        | notFound => rfl
        | otherErr => rfl
        | found dv => cases dv <;> rfl

/-- Snapshot handle used by the C7 witness: its frozen view decodes to an
Ok descriptor. -/
def c7Snap : SnapHandle := ⟨GetOutcome.found (DBValue.info ⟨ApiStatus.statusOk, []⟩)⟩

/-- World used by the C7 witness: snapshot succeeds at version 4, the
collector starts, and the live value differs from the snapshotted one. -/
def c7World : SnapWorld := ⟨some (c7Snap, 4), true, GetOutcome.notFound⟩

/-- C7 witness: on the successful path the error outcome matches the
`readClusterInfo` handling of the snapshotted view. -/
theorem C7_witness :
    (snapAndReadClusterInfo c7World).1.2 = (readClusterInfo c7Snap.view).2 :=
  (C7_snapAndReadClusterInfo.2.2.1 c7World c7Snap 4 rfl rfl).1

lemma lookupA_replaceA {α β : Type} [DecidableEq α] (l : List (α × β)) (k : α)
    (v v0 : β) (h : lookupA l k = some v0) :
    lookupA (replaceA l k v) k = some v := by
  induction l with
  | nil => simp [lookupA] at h
  | cons e rest ih =>
    obtain ⟨e1, e2⟩ := e
    rw [show replaceA ((e1, e2) :: rest) k v =
        (if e1 = k then (k, v) else (e1, e2)) :: replaceA rest k v from rfl]
    by_cases he : e1 = k
    · rw [if_pos he]
      simp [lookupA]
    · rw [if_neg he]
      simp only [lookupA, if_neg he] at h ⊢
      exact ih h

lemma replaceA_idem {α β : Type} [DecidableEq α] (l : List (α × β)) (k : α) (v : β) :
    replaceA (replaceA l k v) k v = replaceA l k v := by
  unfold replaceA
  rw [List.map_map]
  apply List.map_congr_left
  intro e _
  by_cases he : e.1 = k <;> simp [Function.comp, he]

/-- C8: `clear` rejects the None sentinel with resource-not-found and an
absent record with not-found, both leaving the store unchanged; on an
existing record it writes back, via the unconditional update under the
given ttl, the same alert with `Cleared = true`; and it is idempotent —
clearing an already-cleared record succeeds and leaves the store (hence
`Cleared = true`) unchanged. -/
theorem C8_clear :
    (∀ (st : AlertStore) (id : Int) (ttl : Nat),
      clear st ResourceType.none id ttl = (st, some Err.resourceNotFound)) ∧
    (∀ (st : AlertStore) (rt : ResourceType) (id : Int) (ttl : Nat),
      rt ≠ ResourceType.none → lookupA st.records (rt, id) = Option.none →
      clear st rt id ttl = (st, some Err.notFound)) ∧
    (∀ (st : AlertStore) (rt : ResourceType) (id : Int) (ttl : Nat) (a : Alert) (t0 : Nat),
      rt ≠ ResourceType.none → lookupA st.records (rt, id) = some (a, t0) →
      clear st rt id ttl =
        ({ st with records :=
            replaceA st.records (rt, id) ({ a with Cleared := true }, ttl) },
         Option.none) ∧
      lookupA (clear st rt id ttl).1.records (rt, id) =
        some ({ a with Cleared := true }, ttl)) ∧
    (∀ (st : AlertStore) (rt : ResourceType) (id : Int) (ttl : Nat) (st2 : AlertStore),
      clear st rt id ttl = (st2, Option.none) →
      clear st2 rt id ttl = (st2, Option.none)) := by
  refine ⟨?_, ?_, ?_, ?_⟩
  · intro st id ttl
    simp [clear]
  · intro st rt id ttl hrt hl
    simp [clear, hrt, hl]
  · intro st rt id ttl a t0 hrt hl
    refine ⟨by simp [clear, hrt, hl], ?_⟩
    simp only [clear, if_neg hrt, hl]
    exact lookupA_replaceA st.records (rt, id) _ _ hl
  · intro st rt id ttl st2 h
    by_cases hrt : rt = ResourceType.none
    · rw [hrt] at h
      simp [clear] at h
    · cases hl : lookupA st.records (rt, id) with
      | none =>
        simp [clear, hrt, hl] at h
      | some av =>
        simp only [clear, if_neg hrt, hl] at h
        obtain ⟨hst2, -⟩ := Prod.mk.injEq .. ▸ h
        have hl2 : lookupA st2.records (rt, id) =
            some ({ av.1 with Cleared := true }, ttl) := by
          rw [← hst2]
          exact lookupA_replaceA st.records (rt, id) _ _ hl
        simp only [clear, if_neg hrt, hl2]
        have hrec : replaceA st2.records (rt, id) ({ av.1 with Cleared := true }, ttl) =
            st2.records := by
          rw [← hst2]
          exact replaceA_idem st.records (rt, id) _
        rw [hrec]

/-- Alert record used by the C8 witness. -/
def c8Alert : Alert := ⟨3, ResourceType.volume, 2, 5, 50, false, 9⟩

/-- Store holding the C8 witness record under (volume, 3). -/
def c8Store : AlertStore := ⟨[], [((ResourceType.volume, 3), (c8Alert, 9))], some 4⟩

/-- The C8 witness store after a first clear with ttl 7. -/
def c8Cleared : AlertStore := (clear c8Store ResourceType.volume 3 7).1

/-- C8 witness: clearing the already-cleared record succeeds and leaves
the store unchanged. -/
theorem C8_witness :
    clear c8Cleared ResourceType.volume 3 7 = (c8Cleared, Option.none) :=
  C8_clear.2.2.2 c8Store ResourceType.volume 3 7 c8Cleared (by decide)

/-- Two Ready watchers (clusters c1 and c2) sharing a zeroed counter. -/
def twoReady : WatchState :=
  ⟨[("c1", WatcherStatus.watchReady), ("c2", WatcherStatus.watchReady)], 0⟩

/-- C9: the consecutive-watch-error counter is one process-wide variable
shared by all clusters' watchers: a delivery error for any non-Bootstrap
watcher updates the counter in the same way whichever cluster it arrives
on; an error-free, non-ignored mutation on any cluster resets it to zero;
and errors on two different clusters' watches aggregate — three errors on
c1 followed by two on c2 bring the shared counter to 5, so a further
error on c2 fires the permanent-failure callback for c2. -/
theorem C9_shared_watchErrors :
    (∀ (s : WatchState) (c1 c2 : String) (w1 w2 : WatcherStatus),
      lookupA s.watcherMap c1 = some w1 → w1 ≠ WatcherStatus.watchBootstrap →
      lookupA s.watcherMap c2 = some w2 → w2 ≠ WatcherStatus.watchBootstrap →
      (kvdbWatch s (errDelivery c1)).map (fun o => o.state.watchErrors) =
        (kvdbWatch s (errDelivery c2)).map (fun o => o.state.watchErrors)) ∧
    (∀ (s : WatchState) (c key : String) (act : KVAction) (val : Option Alert)
       (w : WatcherStatus),
      lookupA s.watcherMap c = some w →
      strHasSuffix key bootstrapMarker = false →
      strHasSuffix key nextAlertIDKey = false →
      strContainsSub key subscriptionsKey = false →
      (kvdbWatch s ⟨c, false, key, act, val⟩).map (fun o => o.state.watchErrors) =
        some 0) ∧
    (runDeliveries ⟨twoReady, true, [], 0⟩
        [errDelivery "c1", errDelivery "c1", errDelivery "c1",
         errDelivery "c2", errDelivery "c2", errDelivery "c2"]).map RunState.cbLog =
      some [("c2", Option.none, AlertActionType.actionNone)] := by
  refine ⟨?_, ?_, ?_⟩
  · intro s c1 c2 w1 w2 hw1 hb1 hw2 hb2
    by_cases h5 : s.watchErrors = 5
    · rw [kvdbWatch_err_giveup s c1 w1 hw1 hb1 h5,
        kvdbWatch_err_giveup s c2 w2 hw2 hb2 h5]
      simp
    · rw [kvdbWatch_err_ready s c1 w1 hw1 hb1 h5,
        kvdbWatch_err_ready s c2 w2 hw2 hb2 h5]
  · intro s c key act val w hw hb hn hsub
    cases val <;> cases act <;> simp [kvdbWatch, hb, hn, hsub, hw]
  · decide

/-- C9 witness: with both c1 and c2 Ready over the shared zeroed counter,
an error delivered on c1 and an error delivered on c2 leave the shared
counter in the same state. -/
theorem C9_witness :
    (kvdbWatch twoReady (errDelivery "c1")).map (fun o => o.state.watchErrors) =
      (kvdbWatch twoReady (errDelivery "c2")).map (fun o => o.state.watchErrors) :=
  C9_shared_watchErrors.1 twoReady "c1" "c2" WatcherStatus.watchReady
    WatcherStatus.watchReady (by decide) (by decide) (by decide) (by decide)

/-- C10: an error-free delivery whose key ends with the bootstrap marker
sets the cluster's watcher status to Ready unconditionally — whatever
status it had, Ready or Error included — and returns nil immediately:
no callback invocation, no resubscription, and the shared error counter
untouched. -/
theorem C10_bootstrap_sets_ready (s : WatchState) (c key : String) (act : KVAction)
    (val : Option Alert) (w : WatcherStatus)
    (hw : lookupA s.watcherMap c = some w)
    (hk : strHasSuffix key bootstrapMarker = true) :
    kvdbWatch s ⟨c, false, key, act, val⟩ =
      some ⟨⟨replaceA s.watcherMap c WatcherStatus.watchReady, s.watchErrors⟩,
        [], false, false⟩ := by
  simp [kvdbWatch, hk, hw]

/-- Watcher already in the Error state with a non-zero counter, for the
C10 witness. -/
def errorState1 : WatchState := ⟨[("c1", WatcherStatus.watchError)], 3⟩

/-- C10 witness: a bootstrap-key mutation flips an Error watcher back to
Ready, with no callback and the counter left at 3. -/
theorem C10_witness :
    kvdbWatch errorState1
        ⟨"c1", false, "alert/bootstrap", KVAction.kvSet, Option.none⟩ =
      some ⟨⟨replaceA errorState1.watcherMap "c1" WatcherStatus.watchReady,
        errorState1.watchErrors⟩, [], false, false⟩ :=
  C10_bootstrap_sets_ready errorState1 "c1" "alert/bootstrap" KVAction.kvSet
    Option.none WatcherStatus.watchError (by decide) (by decide)

end OpenStorage
